import Mathlib

/-!
Verification of the yt_geotiff frontend (data_structures.py, io.py).

A shallow embedding of the dataset/grid adaptation layer: the affine
pixel-to-world coordinate mapper, single-file GeoTIFF parameter parsing,
band field discovery, Landsat directory validation, Landsat filename
decoding, per-band parameter aggregation, and the raw field reader.
Python floats are modelled as rationals, Python dicts as association
lists or as functions into `Option`, and Python exceptions as `Except`.
-/

namespace YtGeotiff

/-- A rasterio affine transform, six coefficients `[a, b, c, d, e, f]`
mapping pixel `(col, row)` to world `x = a*col + b*row + c`,
`y = d*col + e*row + f`. -/
structure Transform where
  a : Rat
  b : Rat
  c : Rat
  d : Rat
  e : Rat
  f : Rat
deriving DecidableEq

/-- Modelled from the spec: `left_aligned_coord_cal` lives in
`yt_geotiff/utilities.py`, which is not part of the sources available
here (only its call sites in `data_structures.py` are).  Per the spec's
contract, `pixel_to_world(row_count, col_count, transform)` applies the
transform to `(col_count, row_count)` with a left-aligned anchor and no
pixel-center offset: `(a*w + b*h + c, d*w + e*h + f)` for extents
`(h, w)`. -/
def left_aligned_coord_cal (h w : Nat) (t : Transform) : Rat × Rat :=
  (t.a * (w : Rat) + t.b * (h : Rat) + t.c,
   t.d * (w : Rat) + t.e * (h : Rat) + t.f)

/-- The rasterio metadata of one raster file, as used by
`GeoTiffDataset._parse_parameter_file`: `f.meta` exposes `driver`,
`dtype`, `width`, `height`, `count`, `transform` (and `crs`/`nodata`,
which the domain-geometry code never touches). -/
structure RasterMeta where
  driver : String
  dtype : String
  height : Nat
  width : Nat
  count : Nat
  transform : Transform
deriving DecidableEq

/-- The domain-geometry attributes set by `_parse_parameter_file`. -/
structure DomainGeom where
  domain_dimensions : Nat × Nat × Nat
  dimensionality : Nat
  domain_left_edge : Rat × Rat × Rat
  domain_right_edge : Rat × Rat × Rat
deriving DecidableEq

/-- The domain-geometry block shared by `GeoTiffDataset._parse_parameter_file`
(lines 66-78) and the band-1 branch of
`LandSatGeoTiffDataSet._parse_parameter_file` (lines 170-183):
`domain_dimensions = [height, width, 1]`, `dimensionality = 3`,
`domain_left_edge = np.zeros(3)`, and
`domain_right_edge = [x, y, 1]` with `(x, y) =
left_aligned_coord_cal(height, width, transform)`. -/
def mkDomainGeom (h w : Nat) (t : Transform) : DomainGeom :=
  let rightedge_xy := left_aligned_coord_cal h w t
  { domain_dimensions := (h, w, 1)
    dimensionality := 3
    domain_left_edge := (0, 0, 0)
    domain_right_edge := (rightedge_xy.1, rightedge_xy.2, 1) }

/-- `GeoTiffDataset._parse_parameter_file`: the raster's `height`,
`width` and `transform` metadata determine the domain geometry. -/
def parse_parameter_file (m : RasterMeta) : DomainGeom :=
  mkDomainGeom m.height m.width m.transform

/-! ### Decimal digit strings

`Python str(i)` on a band index is modelled by `Nat.repr`.  The lemmas
below establish that `Nat.repr` is injective, which the field-discovery
uniqueness property needs; the proof goes through a fuel-free digit
list and a left-fold decoder. -/

/-- The decimal digit characters of `n`, most significant first;
a fuel-free counterpart of `Nat.toDigits 10 n`. -/
def digitList (n : Nat) : List Char :=
  if h : n < 10 then [Nat.digitChar n]
  else
    have : n / 10 < n := Nat.div_lt_self (by omega) (by omega)
    digitList (n / 10) ++ [Nat.digitChar (n % 10)]

theorem digitList_small {n : Nat} (h : n < 10) :
    digitList n = [Nat.digitChar n] := by
  rw [digitList]
  simp [h]

theorem digitList_large {n : Nat} (h : ¬ n < 10) :
    digitList n = digitList (n / 10) ++ [Nat.digitChar (n % 10)] := by
  rw [digitList]
  simp [h]

theorem toDigitsCore_eq_digitList :
    ∀ (fuel n : Nat) (ds : List Char), n < 10 ^ fuel → 0 < fuel →
      Nat.toDigitsCore 10 fuel n ds = digitList n ++ ds := by
  intro fuel
  induction fuel with
  | zero => intro n ds _ hf; omega
  | succ f ih =>
    intro n ds h _
    rw [Nat.toDigitsCore]
    by_cases h0 : n / 10 = 0
    · have hn : n < 10 := by omega
      have : n % 10 = n := Nat.mod_eq_of_lt hn
      simp [h0, this, digitList_small hn]
    · have hn : ¬ n < 10 := by
        intro hc
        exact h0 (Nat.div_eq_of_lt hc)
      simp only [h0, if_false]
      have hdiv : n / 10 < 10 ^ f := by
        rw [Nat.div_lt_iff_lt_mul (by omega)]
        rw [Nat.pow_succ] at h
        exact h
      have hf : 0 < f := by
        by_contra hc
        have : f = 0 := by omega
        rw [this] at hdiv
        omega
      rw [ih (n / 10) (Nat.digitChar (n % 10) :: ds) hdiv hf,
          digitList_large hn]
      simp

theorem lt_ten_pow_succ_self (n : Nat) : n < 10 ^ (n + 1) := by
  calc n < 2 ^ n := Nat.lt_two_pow n
  _ ≤ 10 ^ n := Nat.pow_le_pow_left (by omega) n
  _ ≤ 10 ^ (n + 1) := Nat.pow_le_pow_right (by omega) (by omega)

theorem toDigits_eq_digitList (n : Nat) :
    Nat.toDigits 10 n = digitList n := by
  have := toDigitsCore_eq_digitList (n + 1) n [] (lt_ten_pow_succ_self n)
    (Nat.succ_pos n)
  simpa [Nat.toDigits] using this

/-- Decode a most-significant-first decimal digit list. -/
def decodeDigits (l : List Char) : Nat :=
  l.foldl (fun a c => a * 10 + (c.toNat - 48)) 0

theorem digitChar_toNat_sub {d : Nat} (h : d < 10) :
    (Nat.digitChar d).toNat - 48 = d := by
  interval_cases d <;> decide

theorem foldl_digitList (n : Nat) : ∀ (a : Nat),
    (digitList n).foldl (fun a c => a * 10 + (c.toNat - 48)) a =
      a * 10 ^ (digitList n).length + n := by
  induction n using Nat.strong_induction_on with
  | _ n ih =>
    intro a
    by_cases h : n < 10
    · rw [digitList_small h]
      simp [digitChar_toNat_sub h]
    · rw [digitList_large h]
      have hdlt : n / 10 < n := Nat.div_lt_self (by omega) (by omega)
      have hmod : n % 10 < 10 := Nat.mod_lt _ (by omega)
      rw [List.foldl_append, ih (n / 10) hdlt a]
      simp only [List.foldl_cons, List.foldl_nil, List.length_append,
        List.length_cons, List.length_nil, digitChar_toNat_sub hmod,
        Nat.pow_succ]
      have hdm : 10 * (n / 10) + n % 10 = n := Nat.div_add_mod n 10
      calc (a * 10 ^ (digitList (n / 10)).length + n / 10) * 10 + n % 10
          = a * (10 ^ (digitList (n / 10)).length * 10)
              + (10 * (n / 10) + n % 10) := by ring
        _ = a * (10 ^ (digitList (n / 10)).length * 10) + n := by rw [hdm]

theorem decodeDigits_digitList (n : Nat) : decodeDigits (digitList n) = n := by
  have := foldl_digitList n 0
  simpa [decodeDigits] using this

theorem digitList_injective : Function.Injective digitList := by
  intro m n h
  have := decodeDigits_digitList m
  rw [h, decodeDigits_digitList] at this
  omega

theorem natRepr_injective : Function.Injective Nat.repr := by
  intro m n h
  apply digitList_injective
  rw [← toDigits_eq_digitList, ← toDigits_eq_digitList]
  have : (Nat.toDigits 10 m).asString = (Nat.toDigits 10 n).asString := h
  have hdata := congrArg String.data this
  simpa [List.asString] using hdata

/-! ### Field discovery (`GeoTiffHierarchy._detect_output_fields`) -/

/-- A yt field key `(ftype, fname)`, e.g. `("bands", "1")`. -/
abbrev FieldKey := String × String

/-- The dataset's `field_units` dict, modelled as a finite map. -/
abbrev UnitsMap := FieldKey → Option String

/-- Python dict assignment `field_units[field_name] = v`. -/
def usetUnits (um : UnitsMap) (k : FieldKey) (v : String) : UnitsMap :=
  fun k' => if k' = k then some v else um k'

/-- `GeoTiffHierarchy._detect_output_fields`: starts from an empty field
list, replaces a falsy `field_units` with `{}`, then for
`_i in range(1, f.count + 1)` appends `("bands", str(_i))` to the field
list and assigns it the unit placeholder `""`.  `count` is the raster's
band count; `u0` is the dataset's prior `field_units` (`none` when it
was falsy). -/
def detect_output_fields (count : Nat) (u0 : Option UnitsMap) :
    List FieldKey × UnitsMap :=
  let um0 := u0.getD (fun _ => none)
  (List.range' 1 count).foldl
    (fun st i =>
      let field_name : FieldKey := ("bands", Nat.repr i)
      (st.1 ++ [field_name], usetUnits st.2 field_name ""))
    ([], um0)

/-- The per-band step function of `_detect_output_fields`. -/
def detectStep (st : List FieldKey × UnitsMap) (i : Nat) :
    List FieldKey × UnitsMap :=
  (st.1 ++ [("bands", Nat.repr i)], usetUnits st.2 ("bands", Nat.repr i) "")

theorem detect_output_fields_eq_foldl (count : Nat) (u0 : Option UnitsMap) :
    detect_output_fields count u0 =
      (List.range' 1 count).foldl detectStep ([], u0.getD (fun _ => none)) :=
  rfl

theorem detectStep_fst (l : List Nat) : ∀ (st : List FieldKey × UnitsMap),
    (l.foldl detectStep st).1 =
      st.1 ++ l.map (fun i => (("bands", Nat.repr i) : FieldKey)) := by
  induction l with
  | nil => intro st; simp
  | cons i l ih =>
    intro st
    rw [List.foldl_cons, ih]
    simp [detectStep]

theorem detectStep_units (l : List Nat) : ∀ (st : List FieldKey × UnitsMap)
    (k : FieldKey),
    (k ∈ l.map (fun i => (("bands", Nat.repr i) : FieldKey)) ∨
      st.2 k = some "") →
    (l.foldl detectStep st).2 k = some "" := by
  induction l with
  | nil =>
    intro st k hk
    rcases hk with hk | hk
    · simp at hk
    · exact hk
  | cons i l ih =>
    intro st k hk
    rw [List.foldl_cons]
    apply ih
    by_cases he : k = ("bands", Nat.repr i)
    · right
      simp [detectStep, usetUnits, he]
    · rcases hk with hk | hk
      · rcases List.mem_map.mp hk with ⟨j, hj, hjk⟩
        rcases List.mem_cons.mp hj with hj | hj
        · exact absurd (hj ▸ hjk).symm he
        · left
          exact List.mem_map.mpr ⟨j, hj, hjk⟩
      · right
        simpa [detectStep, usetUnits, he] using hk

theorem bandKey_injective :
    Function.Injective (fun i => (("bands", Nat.repr i) : FieldKey)) := by
  intro m n h
  exact natRepr_injective (congrArg Prod.snd h)

/-- A sample 2x3 GTiff raster metadata record. -/
def exMeta : RasterMeta :=
  { driver := "GTiff", dtype := "uint16", height := 2, width := 3,
    count := 1, transform := ⟨1, 0, 0, 0, -1, 0⟩ }

/-- C1 counterexample: the claim states `domain_left_edge = (0,0,1)`,
but `_parse_parameter_file` sets `domain_left_edge = np.zeros(3)`,
i.e. `(0,0,0)`; at the sample raster the third component is `0 ≠ 1`. -/
theorem parse_parameter_file_left_edge_ne :
    (parse_parameter_file exMeta).domain_left_edge ≠ (0, 0, 1) := by
  decide

/-- C1 (amended): for every single-file GeoTIFF raster,
`_parse_parameter_file` sets `domain_dimensions = (height, width, 1)`,
`dimensionality = 3`, `domain_left_edge = (0,0,0)` (not `(0,0,1)`) in
world length units, and `domain_right_edge = (x, y, 1)` with `(x, y)`
the Affine Coordinate Mapper applied to `(height, width)` with the
raster's transform. -/
theorem parse_parameter_file_geometry (m : RasterMeta) :
    (parse_parameter_file m).domain_dimensions = (m.height, m.width, 1) ∧
    (parse_parameter_file m).dimensionality = 3 ∧
    (parse_parameter_file m).domain_left_edge = (0, 0, 0) ∧
    (parse_parameter_file m).domain_right_edge =
      ((left_aligned_coord_cal m.height m.width m.transform).1,
       (left_aligned_coord_cal m.height m.width m.transform).2, 1) :=
  ⟨rfl, rfl, rfl, rfl⟩

/-- C3: for all affine transforms `[a,b,c,d,e,f]` and pixel extents
`(h,w)`, the left-aligned pixel-to-world mapping satisfies
`pixel_to_world(h, w, t) = (a*w + b*h + c, d*w + e*h + f)` exactly —
no pixel-center `+0.5` offset — and this is the mapping that computes
the domain right edge in `_parse_parameter_file`. -/
theorem left_aligned_coord_cal_formula (h w : Nat) (t : Transform)
    (m : RasterMeta) :
    left_aligned_coord_cal h w t =
      (t.a * (w : Rat) + t.b * (h : Rat) + t.c,
       t.d * (w : Rat) + t.e * (h : Rat) + t.f) ∧
    (parse_parameter_file m).domain_right_edge =
      (m.transform.a * (m.width : Rat) + m.transform.b * (m.height : Rat)
         + m.transform.c,
       m.transform.d * (m.width : Rat) + m.transform.e * (m.height : Rat)
         + m.transform.f, 1) :=
  ⟨rfl, rfl⟩

/-- C2: on a single raster with band count `N`, field discovery returns
exactly `N` field keys, the `i`-th being `("bands", str(i+1))` (so the
keys are `("bands","1")` through `("bands",str(N))` in ascending band
order), with no duplicates, and the dataset's unit mapping assigns the
placeholder `""` to every discovered field. -/
theorem detect_output_fields_correct (n : Nat) (u0 : Option UnitsMap) :
    (detect_output_fields n u0).1.length = n ∧
    (∀ i (hi : i < (detect_output_fields n u0).1.length),
      (detect_output_fields n u0).1.get ⟨i, hi⟩ = ("bands", Nat.repr (i + 1))) ∧
    (detect_output_fields n u0).1.Nodup ∧
    (∀ fk ∈ (detect_output_fields n u0).1,
      (detect_output_fields n u0).2 fk = some "") := by
  have hfst : (detect_output_fields n u0).1 =
      (List.range' 1 n).map (fun i => (("bands", Nat.repr i) : FieldKey)) := by
    rw [detect_output_fields_eq_foldl, detectStep_fst]
    simp
  refine ⟨?_, ?_, ?_, ?_⟩
  · rw [hfst]
    simp
  · intro i hi
    have hi' : i < n := by
      rw [hfst] at hi
      simpa using hi
    simp only [List.get_eq_getElem, hfst, List.getElem_map, List.getElem_range',
      Nat.one_mul]
    rw [Nat.add_comm]
  · rw [hfst]
    exact (List.nodup_range' 1 n 1 (by omega)).map bandKey_injective
  · intro fk hfk
    rw [detect_output_fields_eq_foldl]
    apply detectStep_units
    left
    rw [detect_output_fields_eq_foldl, detectStep_fst] at hfk
    simpa using hfk

/-- C2 witness: the claim theorem applied to a concrete three-band
raster with no prior unit mapping, the index hypothesis discharged at
band index 1. -/
theorem detect_output_fields_correct_witness :
    (detect_output_fields 3 none).1.length = 3 ∧
    (detect_output_fields 3 none).1.get
      ⟨1, by decide⟩ = ("bands", Nat.repr 2) ∧
    (detect_output_fields 3 none).1.Nodup ∧
    (detect_output_fields 3 none).2 ("bands", "2") = some "" :=
  ⟨(detect_output_fields_correct 3 none).1,
   (detect_output_fields_correct 3 none).2.1 1 (by decide),
   (detect_output_fields_correct 3 none).2.2.1,
   (detect_output_fields_correct 3 none).2.2.2 ("bands", "2") (by decide)⟩

/-! ### Landsat directory validation (`LandSatGeoTiffDataSet._is_valid`) -/

/-- A `.TIF` file in a product directory: its rasterio driver tag, and
whether `rasterio.open` succeeds on it at all. -/
structure TifFile where
  driver : String
  readable : Bool
deriving DecidableEq

/-- A candidate Landsat product directory, as observed by `_is_valid`:
whether the path is a directory, how many files match `L*_ANG.txt` and
`L*_MTL.txt`, and the `*.TIF` files in glob order. -/
structure LandsatDir where
  isDir : Bool
  angCount : Nat
  mtlCount : Nat
  tifs : List TifFile
deriving DecidableEq

/-- `LandSatGeoTiffDataSet._is_valid` (data_structures.py:228-244):
rejects non-directories; rejects when the ANG-file count differs from 1
AND the MTL-file count differs from 1 (the source uses `and` between the
two count tests); then opens the first `*.TIF` file and accepts exactly
when its driver tag is `"GTiff"`, any exception (no `.TIF` file, or an
unreadable one) yielding `False`. -/
def landsat_is_valid (d : LandsatDir) : Bool :=
  if !d.isDir then false
  else if d.angCount ≠ 1 && d.mtlCount ≠ 1 then false
  else
    match d.tifs with
    | [] => false
    | f :: _ =>
      if !f.readable then false
      else f.driver == "GTiff"

/-- A directory holding exactly one `L*_ANG.txt`, no `L*_MTL.txt`, and
one readable GTiff `.TIF` file. -/
def exDirNoMtl : LandsatDir :=
  { isDir := true, angCount := 1, mtlCount := 0,
    tifs := [{ driver := "GTiff", readable := true }] }

/-- C4: the validity predicate ACCEPTS a directory that has an
`L*_ANG.txt` but is missing `L*_MTL.txt`, contradicting the claim: the
source joins the two count checks with `and`, so it only rejects when
both counts differ from 1.  Opening such a directory then proceeds past
validation and fails later, while reading the absent `_MTL.txt`, instead
of raising the format error. -/
theorem landsat_is_valid_accepts_missing_mtl :
    landsat_is_valid exDirNoMtl = true := by
  decide

/-! ### Landsat filename decoding
(`LandSatGeoTiffDataSet._parse_landsat_filename_data`) -/

/-- Python exception classes reached by the embedded code paths. -/
inductive PyErr where
  | keyError (k : String)
  | indexError
  | nameError (n : String)
deriving DecidableEq

/-- Python slice `s[i:j]` on a string (clamping, never failing). -/
def pySlice (s : String) (i j : Nat) : String :=
  ⟨(s.data.take j).drop i⟩

/-- Python dict lookup in a literal table (keys are unique). -/
def lookupTable {α : Type} [DecidableEq α] :
    List (α × String) → α → Option String
  | [], _ => none
  | kv :: rest, k => if kv.1 = k then some kv.2 else lookupTable rest k

/-- The `sensor` dict: `"T": "TIRS-only"` is commented out in the
source, leaving `"T"` mapped to `"TM"`. -/
def sensorTable : List (Char × String) :=
  [('C', "OLI&TIRS combined"), ('O', "OLI-only"),
   ('E', "ETM+"), ('T', "TM"), ('M', "MSS")]

/-- The `satellite` dict. -/
def satelliteTable : List (String × String) :=
  [("07", "Landsat 7"), ("08", "Landsat 8")]

/-- The collection `category` dict. -/
def categoryTable : List (String × String) :=
  [("RT", "Real-Time"), ("T1", "Tier 1"), ("T2", "Tier 2")]

/-- The filename-derived parameters stored by
`_parse_landsat_filename_data`. -/
structure LandsatNameData where
  sensor : String
  satellite : String
  level : String
  wrs_path : String
  wrs_row : String
  acq_year : String
  acq_month : String
  acq_day : String
  proc_year : String
  proc_month : String
  proc_day : String
  coll_number : String
  coll_category : String
deriving DecidableEq

/-- `_parse_landsat_filename_data` (data_structures.py:185-226): decode
the fixed positional slices of the product identifier, mapping the
sensor letter `filename[1]`, the satellite code `filename[2:4]` and the
collection category `filename[38:40]` through the lookup tables; a code
absent from its table raises `KeyError`, an absent index 1 raises
`IndexError`. -/
def parse_landsat_filename_data (fn : String) :
    Except PyErr LandsatNameData :=
  match fn.data.get? 1 with
  | none => .error .indexError
  | some ch =>
    match lookupTable sensorTable ch with
    | none => .error (.keyError (String.mk [ch]))
    | some sens =>
      match lookupTable satelliteTable (pySlice fn 2 4) with
      | none => .error (.keyError (pySlice fn 2 4))
      | some sat =>
        match lookupTable categoryTable (pySlice fn 38 40) with
        | none => .error (.keyError (pySlice fn 38 40))
        | some cat =>
          .ok { sensor := sens
                satellite := sat
                level := pySlice fn 5 9
                wrs_path := pySlice fn 10 13
                wrs_row := pySlice fn 13 16
                acq_year := pySlice fn 17 21
                acq_month := pySlice fn 21 23
                acq_day := pySlice fn 23 25
                proc_year := pySlice fn 26 30
                proc_month := pySlice fn 30 32
                proc_day := pySlice fn 32 34
                coll_number := pySlice fn 35 37
                coll_category := cat }

/-- C6: the product identifier
`LC08_L1TP_171060_20210227_20210304_02_T1` decodes to
satellite `"Landsat 8"`, sensor `"OLI&TIRS combined"`, level `"L1TP"`,
WRS path `"171"` / row `"060"`, acquisition time 2021-02-27, processing
time 2021-03-04, and collection number `"02"`, category `"Tier 1"`. -/
theorem parse_landsat_filename_example :
    parse_landsat_filename_data "LC08_L1TP_171060_20210227_20210304_02_T1" =
      .ok { sensor := "OLI&TIRS combined"
            satellite := "Landsat 8"
            level := "L1TP"
            wrs_path := "171"
            wrs_row := "060"
            acq_year := "2021"
            acq_month := "02"
            acq_day := "27"
            proc_year := "2021"
            proc_month := "03"
            proc_day := "04"
            coll_number := "02"
            coll_category := "Tier 1" } := by
  rfl

/-- C7: whenever a coded field's value (the sensor letter at index 1,
the satellite code at `[2:4]`, or the collection category at `[38:40]`)
is not a key of its lookup table, filename decoding fails with a
`KeyError`-class error — it never returns a result with a substituted
default. -/
theorem parse_landsat_filename_unknown_code (fn : String) (ch : Char)
    (hch : fn.data.get? 1 = some ch)
    (hbad : lookupTable sensorTable ch = none ∨
            lookupTable satelliteTable (pySlice fn 2 4) = none ∨
            lookupTable categoryTable (pySlice fn 38 40) = none) :
    ∃ k, parse_landsat_filename_data fn = .error (.keyError k) := by
  simp only [parse_landsat_filename_data, hch]
  cases hs : lookupTable sensorTable ch with
  | none => exact ⟨String.mk [ch], by simp [hs]⟩
  | some sens =>
    simp only [hs]
    cases hsat : lookupTable satelliteTable (pySlice fn 2 4) with
    | none => exact ⟨pySlice fn 2 4, by simp [hsat]⟩
    | some sat =>
      simp only [hsat]
      cases hcat : lookupTable categoryTable (pySlice fn 38 40) with
      | none => exact ⟨pySlice fn 38 40, by simp [hcat]⟩
      | some cat => simp_all

/-- C7 witness: the identifier with unknown sensor letter `'X'` is
rejected with a `KeyError`. -/
theorem parse_landsat_filename_unknown_code_witness :
    ∃ k, parse_landsat_filename_data
      "LX08_L1TP_171060_20210227_20210304_02_T1" =
        Except.error (PyErr.keyError k) :=
  parse_landsat_filename_unknown_code
    "LX08_L1TP_171060_20210227_20210304_02_T1" 'X'
    (by decide) (Or.inl (by decide))

/-! ### Raw field reading (`IOHandlerYTGTiff._read_raw_field`) -/

/-- One band's pixel array: a list of rows of pixel values. -/
abbrev BandArray := List (List Int)

/-- A raster source as the raster backend exposes it: pixel extents and
the per-band arrays.  Re-opened on every read; `read` is rasterio's
`f.read(b)` with 1-based band numbering, raising on an out-of-range
index. -/
structure Raster where
  height : Nat
  width : Nat
  bands : List BandArray

def Raster.read (r : Raster) (b : Nat) : Option BandArray :=
  if b = 0 then none else r.bands.get? (b - 1)

/-- `arr` is a dense 2-D array of shape `(h, w)`. -/
abbrev BandArray.hasShape (arr : BandArray) (h w : Nat) : Prop :=
  arr.length = h ∧ ∀ row ∈ arr, row.length = w

/-- Python `int(s)` on a band identifier: the decimal value of a plain
digit string, `none` where CPython raises `ValueError`. -/
def intOfString (s : String) : Option Nat :=
  if s.data.isEmpty || !s.data.all (·.isDigit) then none
  else some (s.data.foldl (fun n c => n * 10 + (c.toNat - 48)) 0)

/-- `IOHandlerYTGTiff._read_raw_field` (io.py:56-60): take the band
number from the field identifier (`band = field[1]`), open the raster
source, and return `f.read(int(band))`.  The function holds no state:
each call re-opens the source and re-reads, so the result is a pure
function of the source contents. -/
def read_raw_field (r : Raster) (field : FieldKey) : Option BandArray :=
  match intOfString field.2 with
  | none => none
  | some b => r.read b

/-- C5: on a well-formed raster, reading a raw field whose identifier
denotes a band `b` in `1..band_count` returns exactly the raster
backend's direct read of band `b`, a dense 2-D array of shape
`(height, width)`; the reader is a pure function of the source, so no
caching across calls can change the result. -/
theorem read_raw_field_correct (r : Raster) (field : FieldKey) (b : Nat)
    (hb : intOfString field.2 = some b) (h1 : 1 ≤ b) (h2 : b ≤ r.bands.length)
    (hwf : ∀ arr ∈ r.bands, arr.hasShape r.height r.width) :
    read_raw_field r field = r.read b ∧
    ∃ arr, r.read b = some arr ∧ arr.length = r.height ∧
      ∀ row ∈ arr, row.length = r.width := by
  constructor
  · simp [read_raw_field, hb]
  · have hbn : b - 1 < r.bands.length := by omega
    have hb0 : ¬ b = 0 := by omega
    refine ⟨r.bands.get ⟨b - 1, hbn⟩, ?_, ?_⟩
    · simp [Raster.read, hb0]
    · exact hwf _ (r.bands.get_mem _ _)

/-- A concrete 2x2 raster with three bands. -/
def exRaster : Raster :=
  { height := 2, width := 2,
    bands := [[[1, 2], [3, 4]], [[5, 6], [7, 8]], [[9, 10], [11, 12]]] }

/-- C5 witness: the claim theorem applied to the concrete three-band
raster at field `("bands", "2")`. -/
theorem read_raw_field_correct_witness :
    read_raw_field exRaster ("bands", "2") = exRaster.read 2 ∧
    ∃ arr, exRaster.read 2 = some arr ∧ arr.length = exRaster.height ∧
      ∀ row ∈ arr, row.length = exRaster.width :=
  read_raw_field_correct exRaster ("bands", "2") 2
    (by decide) (by decide) (by decide) (by decide)

/-! ### Landsat parameter aggregation
(`LandSatGeoTiffDataSet._parse_parameter_file`, lines 156-183) -/

/-- A key of the Landsat ParameterTable: either a plain string key
(raw metafile keys, filename-derived keys, `count`) or a tuple key
`(band, key)` written by the per-band metadata merge. -/
inductive PKey where
  | str (s : String)
  | band (b : String) (k : String)
deriving DecidableEq

/-- A value of the ParameterTable (strings, integers, transforms;
other value shapes are irrelevant to the merged keys). -/
inductive PVal where
  | vNat (n : Nat)
  | vStr (s : String)
  | vTransform (t : Transform)
deriving DecidableEq

/-- The ParameterTable as a finite map. -/
abbrev Params := PKey → Option PVal

/-- Python dict assignment `self.parameters[k] = v`. -/
def pset (p : Params) (k : PKey) (v : PVal) : Params :=
  fun k' => if k' = k then some v else p k'

/-- The inner metadata merge for one band file (data_structures.py
lines 160-166): for each key of `f.meta`, skip it if the plain key is
already a parameter (`if key in self.parameters.keys(): continue` —
a string compares unequal to every tuple key), else store the value
under the tuple key `(band, key)`. -/
def merge_band_meta (band : String) (meta : List (String × PVal))
    (p : Params) : Params :=
  meta.foldl
    (fun acc kv =>
      if (acc (PKey.str kv.1)).isSome then acc
      else pset acc (PKey.band band kv.1) kv.2) p

/-- One entry of the per-band file loop: the band code parsed from the
file name and the rasterio metadata of that file. -/
structure BandFile where
  band : String
  meta : List (String × PVal)
deriving DecidableEq

/-- The mutable state of `LandSatGeoTiffDataSet._parse_parameter_file`
across the band loop: the ParameterTable and the domain geometry
attributes (unset before any band `"1"` file is seen). -/
structure LandsatState where
  params : Params
  geom : Option DomainGeom

/-- One iteration of the band loop (lines 156-183): merge the file's
metadata, and if the band code is `"1"`, recompute the domain geometry
from the parameters `(band, 'height')`, `(band, 'width')`,
`(band, 'transform')`; a missing (or ill-typed) entry there raises. -/
def process_band_file (st : LandsatState) (bf : BandFile) :
    Except PyErr LandsatState :=
  let p := merge_band_meta bf.band bf.meta st.params
  if bf.band = "1" then
    match p (PKey.band "1" "height"), p (PKey.band "1" "width"),
          p (PKey.band "1" "transform") with
    | some (PVal.vNat h), some (PVal.vNat w), some (PVal.vTransform t) =>
      .ok { params := p, geom := some (mkDomainGeom h w t) }
    | _, _, _ => .error (PyErr.keyError "(band, key)")
  else
    .ok { params := p, geom := st.geom }

/-- The band loop itself, with exceptions propagating. -/
def landsat_band_loop :
    List BandFile → LandsatState → Except PyErr LandsatState
  | [], st => .ok st
  | bf :: rest, st =>
    match process_band_file st bf with
    | .error e => .error e
    | .ok st' => landsat_band_loop rest st'

theorem merge_band_meta_str (band : String) (meta : List (String × PVal)) :
    ∀ (p : Params) (s : String),
      merge_band_meta band meta p (PKey.str s) = p (PKey.str s) := by
  induction meta with
  | nil => intro p s; rfl
  | cons kv rest ih =>
    intro p s
    have hstep : merge_band_meta band (kv :: rest) p =
        merge_band_meta band rest
          (if (p (PKey.str kv.1)).isSome then p
           else pset p (PKey.band band kv.1) kv.2) := by
      simp [merge_band_meta]
    rw [hstep]
    by_cases hk : (p (PKey.str kv.1)).isSome
    · rw [if_pos hk, ih]
    · rw [if_neg hk, ih]
      simp [pset]

theorem process_band_file_params (st : LandsatState) (bf : BandFile)
    (st1 : LandsatState) (hpr : process_band_file st bf = .ok st1) :
    st1.params = merge_band_meta bf.band bf.meta st.params := by
  simp only [process_band_file] at hpr
  by_cases hb : bf.band = "1"
  · rw [if_pos hb] at hpr
    split at hpr
    · cases hpr
      rfl
    · cases hpr
  · rw [if_neg hb] at hpr
    cases hpr
    rfl

theorem landsat_band_loop_str (files : List BandFile) :
    ∀ (st st' : LandsatState), landsat_band_loop files st = .ok st' →
      ∀ s, st'.params (PKey.str s) = st.params (PKey.str s) := by
  induction files with
  | nil =>
    intro st st' hok s
    cases hok
    rfl
  | cons bf rest ih =>
    intro st st' hok s
    rw [landsat_band_loop] at hok
    cases hpr : process_band_file st bf with
    | error e => rw [hpr] at hok; cases hok
    | ok st1 =>
      rw [hpr] at hok
      rw [ih st1 st' hok s, process_band_file_params st bf st1 hpr,
        merge_band_meta_str]

/-- C8: during multi-file Landsat parameter aggregation, every key
already present in the ParameterTable before the per-band merges — all
reachable pre-loop keys are plain string keys: raw metafile keys,
`count`, and the filename-derived keys — keeps its value through the
whole band loop: the merge skips any metadata key whose plain key is
already a parameter and only ever writes fresh `(band, key)` tuple
keys, so it is first-write-wins for those keys. -/
theorem landsat_merge_first_write_wins (files : List BandFile)
    (st st' : LandsatState)
    (hstr : ∀ k, (st.params k).isSome → ∃ s, k = PKey.str s)
    (hok : landsat_band_loop files st = .ok st') :
    ∀ k, (st.params k).isSome → st'.params k = st.params k := by
  intro k hk
  rcases hstr k hk with ⟨s, rfl⟩
  exact landsat_band_loop_str files st st' hok s

/-- A ParameterTable as it stands before the band loop: raw metafile
keys, `count`, and the filename-derived keys — all plain string keys. -/
def exInitParams : Params := fun k =>
  if k = PKey.str "satellite" then some (PVal.vStr "Landsat 8")
  else if k = PKey.str "count" then some (PVal.vNat 2)
  else none

/-- The band files of a sample two-file product. -/
def exLandsatMeta : List (String × PVal) :=
  [("driver", PVal.vStr "GTiff"), ("height", PVal.vNat 2),
   ("width", PVal.vNat 3), ("transform", PVal.vTransform ⟨1, 0, 0, 0, -1, 0⟩)]

/-- C8 witness: the claim theorem applied to a concrete pre-loop
ParameterTable and band file, at the filename-derived key
`satellite`. -/
theorem landsat_merge_first_write_wins_witness :
    (LandsatState.params
        { params := merge_band_meta "1" exLandsatMeta exInitParams,
          geom := some (mkDomainGeom 2 3 ⟨1, 0, 0, 0, -1, 0⟩) })
      (PKey.str "satellite") = exInitParams (PKey.str "satellite") :=
  landsat_merge_first_write_wins [⟨"1", exLandsatMeta⟩]
    ⟨exInitParams, none⟩
    { params := merge_band_meta "1" exLandsatMeta exInitParams,
      geom := some (mkDomainGeom 2 3 ⟨1, 0, 0, 0, -1, 0⟩) }
    (by
      intro k hk
      cases k with
      | str s => exact ⟨s, rfl⟩
      | band b k2 => simp [exInitParams] at hk)
    (by rfl)
    (PKey.str "satellite") (by decide)

/-- C9: the band loop computes the domain geometry from band `"1"`'s
metadata specifically (first conjunct: with a band-2 file present, the
geometry comes from the band-1 file's height/width/transform) — but
when no band file has band code `"1"`, the loop completes without any
error and leaves the geometry unset (second conjunct): no
`MissingBandOne` failure exists in the code. -/
theorem landsat_domain_geometry_band_one :
    (∀ (h w : Nat) (t : Transform),
      ∃ st', landsat_band_loop
          [⟨"2", [("driver", PVal.vStr "GTiff")]⟩,
           ⟨"1", [("height", PVal.vNat h), ("width", PVal.vNat w),
                  ("transform", PVal.vTransform t)]⟩]
          ⟨fun _ => none, none⟩ = .ok st' ∧
        st'.geom = some (mkDomainGeom h w t)) ∧
    (∀ (files : List BandFile) (st : LandsatState),
      (∀ bf ∈ files, bf.band ≠ "1") → st.geom = none →
      ∃ st', landsat_band_loop files st = .ok st' ∧ st'.geom = none) := by
  constructor
  · intro h w t
    exact ⟨_, rfl, rfl⟩
  · intro files
    induction files with
    | nil =>
      intro st _ hg
      exact ⟨st, rfl, hg⟩
    | cons bf rest ih =>
      intro st hno hg
      have hbf : bf.band ≠ "1" := hno bf (List.mem_cons_self bf rest)
      have hpr : process_band_file st bf =
          .ok { params := merge_band_meta bf.band bf.meta st.params,
                geom := st.geom } := by
        simp [process_band_file, hbf]
      rw [landsat_band_loop, hpr]
      exact ih { params := merge_band_meta bf.band bf.meta st.params,
                 geom := st.geom }
        (fun b hb => hno b (List.mem_cons_of_mem bf hb)) hg

/-- C9 witness: the claim theorem applied at a concrete band-1 file
(geometry set from its metadata) and at a concrete band list with no
band `"1"` (loop succeeds, geometry left unset). -/
theorem landsat_domain_geometry_band_one_witness :
    (∃ st', landsat_band_loop
        [⟨"2", [("driver", PVal.vStr "GTiff")]⟩,
         ⟨"1", [("height", PVal.vNat 2), ("width", PVal.vNat 3),
                ("transform", PVal.vTransform ⟨1, 0, 0, 0, -1, 0⟩)]⟩]
        ⟨fun _ => none, none⟩ = .ok st' ∧
      st'.geom = some (mkDomainGeom 2 3 ⟨1, 0, 0, 0, -1, 0⟩)) ∧
    (∃ st', landsat_band_loop [⟨"2", [("driver", PVal.vStr "GTiff")]⟩]
        ⟨fun _ => none, none⟩ = .ok st' ∧ st'.geom = none) :=
  ⟨landsat_domain_geometry_band_one.1 2 3 ⟨1, 0, 0, 0, -1, 0⟩,
   landsat_domain_geometry_band_one.2 [⟨"2", [("driver", PVal.vStr "GTiff")]⟩]
     ⟨fun _ => none, none⟩ (by decide) rfl⟩

/-! ### The fluid-selection read path (`IOHandlerYTGTiff._read_fluid_selection`) -/

/-- The names bound at module level in io.py: the imports
`numpy as np`, `rasterio`, `BaseIOHandler` (from
`yt.utilities.io_handler`), and the class `IOHandlerYTGTiff` itself.
Neither `_remove_raw`, `mylog`, `defaultdict` nor `os` is imported or
defined. -/
def ioModuleGlobals : List String :=
  ["np", "rasterio", "BaseIOHandler", "IOHandlerYTGTiff"]

/-- The Python builtins the io.py read path could fall back to; none of
the four unbound names above is a builtin (`os` and `defaultdict` are
importable module members, `mylog` and `_remove_raw` are yt-internal
helpers). -/
def pyBuiltins : List String :=
  ["list", "len", "sum", "range", "int", "str", "open", "sorted", "print"]

/-- Python name resolution for a bare name in an io.py method body,
after local scope: module globals, then builtins. -/
def ioResolves (name : String) : Bool :=
  ioModuleGlobals.contains name || pyBuiltins.contains name

/-- The allocations `_read_fluid_selection` makes for `rv` (io.py lines
30-37): per raw field an `(size, 2^(sum nodal_flag))` array, per other
field a `(size,)` array; recorded as the per-cell node count. -/
def rvAlloc (nodal : String → Nat) (fields : List FieldKey) :
    List (FieldKey × Nat) :=
  fields.map fun f => if f.1 = "raw" then (f, 2 ^ nodal f.2) else (f, 1)

/-- `IOHandlerYTGTiff._read_fluid_selection` (io.py:24-54): after the
`rv` allocation loop, line 38 evaluates `_remove_raw(fields,
raw_fields)`; the name must resolve before anything later (the `mylog`
call, the chunk loop through `_read_chunk_data` with its `defaultdict`
and `os` references) runs.  `rest` abstracts that entire continuation:
whatever it would do, it is only reached if `_remove_raw` resolves. -/
def read_fluid_selection
    (rest : List (FieldKey × Nat) → Except PyErr (List (FieldKey × Nat)))
    (nodal : String → Nat) (fields : List FieldKey) :
    Except PyErr (List (FieldKey × Nat)) :=
  let rv := rvAlloc nodal fields
  if ioResolves "_remove_raw" then rest rv
  else .error (.nameError "_remove_raw")

/-- C10: for every call of the fluid-selection read with a non-empty
field list — in fact for every call — and whatever the rest of the
function would compute, execution reaches the unbound name
`_remove_raw` at io.py line 38 and fails with a `NameError`, so the
read never returns its result dictionary; `mylog`, `defaultdict` and
`os` are likewise unresolvable in the module. -/
theorem read_fluid_selection_name_error
    (rest : List (FieldKey × Nat) → Except PyErr (List (FieldKey × Nat)))
    (nodal : String → Nat) (fields : List FieldKey) (_hne : fields ≠ []) :
    read_fluid_selection rest nodal fields =
      .error (.nameError "_remove_raw") ∧
    ioResolves "mylog" = false ∧
    ioResolves "defaultdict" = false ∧
    ioResolves "os" = false := by
  exact ⟨rfl, rfl, rfl, rfl⟩

/-- C10 witness: the claim theorem applied to a one-field read request
whose continuation would return the result dictionary unchanged. -/
theorem read_fluid_selection_name_error_witness :
    read_fluid_selection (fun rv => .ok rv) (fun _ => 0) [("bands", "1")] =
      Except.error (PyErr.nameError "_remove_raw") ∧
    ioResolves "mylog" = false ∧
    ioResolves "defaultdict" = false ∧
    ioResolves "os" = false :=
  read_fluid_selection_name_error (fun rv => .ok rv) (fun _ => 0)
    [("bands", "1")] (by decide)

end YtGeotiff
